import Mathlib

/-!
Verification of the Academic Progression Engine of the IIPS attendance
backend (`StudentController`: `promoteStudentsToNextSemester` and
`rollbackStudents`).  The JavaScript source is shallowly embedded: machine
numbers become `Int`/`Nat`, `parseInt` becomes an `Option Int`-valued parser,
the Mongo collections become association lists, and the per-request handlers
become pure functions from a request plus an environment to a response plus
an updated environment.
-/

namespace IIPS

/-! ## JS string/number primitives used by the engine -/

/-- Numeric value of a decimal digit character (JS `charCode - 48`). -/
def digitVal (c : Char) : Nat := c.toNat - 48

/-- Value of a list of decimal digit characters, most significant first. -/
def digitsVal (l : List Char) : Nat := l.foldl (fun a c => 10 * a + digitVal c) 0

/-- `parseInt(str, 10)` on a character list: skip leading whitespace, read an
optional sign, then the longest run of decimal digits; `none` models `NaN`
(no digits found).  Trailing garbage is ignored, exactly as in JS. -/
def jsParseIntList (l0 : List Char) : Option Int :=
  match l0.dropWhile Char.isWhitespace with
  | [] => none
  | c :: rest =>
    if c = '-' then
      let d := rest.takeWhile Char.isDigit
      if d.isEmpty then none else some (-(digitsVal d : Int))
    else if c = '+' then
      let d := rest.takeWhile Char.isDigit
      if d.isEmpty then none else some ((digitsVal d : Int))
    else
      let d := (c :: rest).takeWhile Char.isDigit
      if d.isEmpty then none else some ((digitsVal d : Int))

/-- `parseInt(s, 10)`; `none` models `NaN`. -/
def parseIntJS (s : String) : Option Int := jsParseIntList s.data

/-- Decimal digit characters of `n`, most significant first; the first
argument is structural fuel (`n + 1` always suffices). -/
def natToDecAux : Nat → Nat → List Char
  | 0, _ => []
  | fuel + 1, n =>
    if n < 10 then [Nat.digitChar n]
    else natToDecAux fuel (n / 10) ++ [Nat.digitChar (n % 10)]

/-- Decimal digit characters of a natural number, most significant first. -/
def natToDec (n : Nat) : List Char := natToDecAux (n + 1) n

/-- Decimal rendering of an integer: models JS `Number#toString()` (and
template-literal interpolation) for integer values. -/
def jsIntToString (m : Int) : String :=
  if m < 0 then String.mk ('-' :: natToDec m.natAbs) else String.mk (natToDec m.natAbs)

/-- JS `str.slice(-2)`: the last two characters (the whole string when it is
shorter than two characters). -/
def sliceLast2 (s : String) : String := String.mk (s.data.drop (s.data.length - 2))

/-- JS `str.split("-")[0]`: the prefix of `s` before the first `'-'`. -/
def splitFirst (s : String) : String := String.mk (s.data.takeWhile (fun c => c ≠ '-'))

/-- The forward year-label derivation shared by the promotion path and the
`resetAttendance` rollback path: `newStart = parseInt(start) + 1` and the
label is `` `${newStart}-${(newStart+1).toString().slice(-2)}` ``.  When the
start segment does not parse, JS computes `NaN + 1 = NaN`; interpolating
gives `"NaN"` whose `slice(-2)` is `"aN"`, hence the label `"NaN-aN"`. -/
def yearForward (y : String) : String :=
  match parseIntJS (splitFirst y) with
  | some s => jsIntToString (s + 1) ++ "-" ++ sliceLast2 (jsIntToString (s + 2))
  | none => "NaN-aN"

/-- The backward year-label derivation of the normal rollback path:
`prevStart = parseInt(start) - 1` and the label is
`` `${prevStart}-${(prevStart+1).toString().slice(-2)}` ``; note
`prevStart + 1` is the original start year.  Unparseable start gives
`"NaN-aN"` as in `yearForward`. -/
def yearBackward (y : String) : String :=
  match parseIntJS (splitFirst y) with
  | some s => jsIntToString (s - 1) ++ "-" ++ sliceLast2 (jsIntToString s)
  | none => "NaN-aN"

/-- Two-digit zero-padded decimal rendering of `m < 100`; used to state the
spec's "last two digits, zero-padded to two characters". -/
def pad2 (m : Nat) : String := String.mk [Nat.digitChar (m / 10), Nat.digitChar (m % 10)]

/-! ## Data model -/

/-- The slice of the Student document the engine reads and writes.  `sid`
stands for the Mongo `_id`. -/
structure StudentState where
  sid : Nat
  courseId : Nat
  semId : String
  academicYear : String
deriving Repr, DecidableEq

/-- The slice of the Course document the engine reads (`Course_Id`,
`No_of_Sem`). -/
structure Course where
  cid : Nat
  noOfSem : Int
deriving Repr, DecidableEq

/-- One entry of an Attendance document's `records` array (dates and
timestamps abstracted to `Nat`). -/
structure AttendanceEntry where
  date : Nat
  present : Bool
  markedBy : Option String
deriving Repr, DecidableEq

/-- An Attendance document. -/
structure AttendanceRec where
  studentId : Nat
  subjectCode : String
  currAcademicYear : String
  records : List AttendanceEntry
deriving Repr, DecidableEq

/-- The backing store visible to the two handlers: the Students collection,
the Course catalog and the Attendance collection. -/
structure Env where
  students : List StudentState
  courses : List Course
  attendance : List AttendanceRec
deriving Repr, DecidableEq

/-- `Course.findOne({ Course_Id: cid })`. -/
def findCourse (courses : List Course) (cid : Nat) : Option Course :=
  courses.find? (fun c => c.cid == cid)

/-- `Student.find({ _id: { $in: ids } })`: the matching documents in
collection order. -/
def findStudents (students : List StudentState) (ids : List Nat) : List StudentState :=
  students.filter (fun s => ids.contains s.sid)

/-- The per-item skip reasons of the two handlers ("Course not found",
"Invalid semester" / "Invalid semester value", "Final semester",
"Already in first semester"). -/
inductive SkipReason where
  | courseNotFound
  | invalidSemester
  | finalSemester
  | alreadyFirstSemester
deriving Repr, DecidableEq

/-- The `type` tag of a rollback record. -/
inductive RbKind where
  | resetYearOnly
  | normalRollback
deriving Repr, DecidableEq

/-- Per-student decision of the promotion loop body: either the `$set`
payload (plus the `fromSem`/`toSem` numbers of the report record) or a
skip reason. -/
inductive PromoteDecision where
  | apply (fromSem toSem : Int) (newSemId newYear : String)
  | skip (reason : SkipReason)
deriving Repr, DecidableEq

/-- The body of the promotion loop for one student: course lookup,
`parseInt` of `semId`, the `currentSem >= course.No_of_Sem` ceiling check,
then `nextSem = currentSem + 1` with the academic year advanced exactly when
`currentSem % 2 === 0`. -/
def promoteStep (courses : List Course) (s : StudentState) : PromoteDecision :=
  match findCourse courses s.courseId with
  | none => .skip .courseNotFound
  | some course =>
    match parseIntJS s.semId with
    | none => .skip .invalidSemester
    | some currentSem =>
      if currentSem ≥ course.noOfSem then .skip .finalSemester
      else
        let nextSem := currentSem + 1
        let nextYear :=
          if currentSem.tmod 2 = 0 then yearForward s.academicYear else s.academicYear
        .apply currentSem nextSem (jsIntToString nextSem) nextYear

/-- Per-student decision of the rollback loop body: the `$set` payload
(`none` components are absent from the payload, so the stored field is left
unchanged) plus the record `type`, or a skip reason. -/
inductive RollbackDecision where
  | apply (newSemId : Option String) (newYear : Option String) (kind : RbKind)
  | skip (reason : SkipReason)
deriving Repr, DecidableEq

/-- The body of the rollback loop for one student: `parseInt` of `semId`
first; with `resetAttendance` the semester is untouched and the year is
always advanced (same formula as promotion); otherwise `currentSem <= 1`
skips, else the semester is decremented and the year regresses exactly when
`currentSem % 2 === 0`. -/
def rollbackStep (resetAttendance : Bool) (s : StudentState) : RollbackDecision :=
  match parseIntJS s.semId with
  | none => .skip .invalidSemester
  | some currentSem =>
    if resetAttendance then
      .apply none (some (yearForward s.academicYear)) .resetYearOnly
    else if currentSem ≤ 1 then .skip .alreadyFirstSemester
    else
      let previousSem := currentSem - 1
      let newYear :=
        if currentSem.tmod 2 = 0 then some (yearBackward s.academicYear) else none
      .apply (some (jsIntToString previousSem)) newYear .normalRollback

/-- A `promoted` report record (`studentId`, `fromSem`, `toSem`,
`academicYear`). -/
structure PromoteRec where
  studentId : Nat
  fromSem : Int
  toSem : Int
  academicYear : String
deriving Repr, DecidableEq

/-- A `skipped` report record. -/
structure SkipRec where
  studentId : Nat
  reason : SkipReason
deriving Repr, DecidableEq

/-- A `rolledBack` report record (`studentId`, resulting academic year,
`type`); the remaining report-only fields of the source record (`fromSem`,
`toSem`, `academicYearFrom`) are projections of the snapshot student and the
payload and are not modelled separately. -/
structure RollbackRec where
  studentId : Nat
  yearTo : String
  kind : RbKind
deriving Repr, DecidableEq

/-- Effect of a promotion `$set` payload on a student document. -/
def applyPromote (s : StudentState) : PromoteDecision → StudentState
  | .apply _ _ newSemId newYear => { s with semId := newSemId, academicYear := newYear }
  | .skip _ => s

/-- Effect of a rollback `$set` payload on a student document: absent
components leave the stored field unchanged. -/
def applyRollback (s : StudentState) : RollbackDecision → StudentState
  | .apply sp yp _ =>
      { s with semId := sp.getD s.semId, academicYear := yp.getD s.academicYear }
  | .skip _ => s

/-- `Student.updateOne({ _id: sid }, { $set: ... })` on the collection. -/
def updateWith (students : List StudentState) (sid : Nat)
    (f : StudentState → StudentState) : List StudentState :=
  students.map (fun t => if t.sid == sid then f t else t)

/-- The promotion loop over the fetched snapshot `found`, threading the
Students collection; each student contributes exactly one `promoted` or one
`skipped` record, in snapshot order. -/
def promoteLoop (courses : List Course) (found : List StudentState)
    (db : List StudentState) : List PromoteRec × List SkipRec × List StudentState :=
  match found with
  | [] => ([], [], db)
  | s :: rest =>
    match promoteStep courses s with
    | .apply fromSem toSem newSemId newYear =>
      let db1 := updateWith db s.sid
        (fun t => { t with semId := newSemId, academicYear := newYear })
      let r := promoteLoop courses rest db1
      (⟨s.sid, fromSem, toSem, newYear⟩ :: r.1, r.2.1, r.2.2)
    | .skip reason =>
      let r := promoteLoop courses rest db
      (r.1, ⟨s.sid, reason⟩ :: r.2.1, r.2.2)

/-- The rollback loop over the fetched snapshot, threading the Students
collection. -/
def rollbackLoop (resetAttendance : Bool) (found : List StudentState)
    (db : List StudentState) : List RollbackRec × List SkipRec × List StudentState :=
  match found with
  | [] => ([], [], db)
  | s ::rest =>
    match rollbackStep resetAttendance s with
    | .apply sp yp kind =>
      let db1 := updateWith db s.sid
        (fun t => { t with semId := sp.getD t.semId, academicYear := yp.getD t.academicYear })
      let r := rollbackLoop resetAttendance rest db1
      (⟨s.sid, yp.getD s.academicYear, kind⟩ :: r.1, r.2.1, r.2.2)
    | .skip reason =>
      let r := rollbackLoop resetAttendance rest db
      (r.1, ⟨s.sid, reason⟩ :: r.2.1, r.2.2)

/-- The `studentIds` field of the request body: absent, present but not an
array, or an array of ids. -/
inductive ReqIds where
  | missing
  | notArray
  | arr (ids : List Nat)
deriving Repr, DecidableEq

/-- Response of the promotion handler. -/
inductive PromoteResp where
  | badRequest
  | notFound
  | serverError
  | ok (promoted : List PromoteRec) (skipped : List SkipRec)
deriving Repr, DecidableEq

/-- HTTP status of a promotion response. -/
def PromoteResp.status : PromoteResp → Nat
  | .badRequest => 400
  | .notFound => 404
  | .serverError => 500
  | .ok _ _ => 200

/-- Response of the rollback handler; note there is no 404 variant: the
source has no empty-result check on this path. -/
inductive RollbackResp where
  | badRequest
  | serverError
  | ok (rolledBack : List RollbackRec) (skipped : List SkipRec)
deriving Repr, DecidableEq

/-- HTTP status of a rollback response. -/
def RollbackResp.status : RollbackResp → Nat
  | .badRequest => 400
  | .serverError => 500
  | .ok _ _ => 200

/-- Ids of the `promoted` list of a 200 response (empty otherwise). -/
def PromoteResp.appliedIds : PromoteResp → List Nat
  | .ok p _ => p.map PromoteRec.studentId
  | _ => []

/-- Ids of the `skipped` list of a 200 promotion response. -/
def PromoteResp.skippedIds : PromoteResp → List Nat
  | .ok _ k => k.map SkipRec.studentId
  | _ => []

/-- Ids of the `rolledBack` list of a 200 rollback response. -/
def RollbackResp.appliedIds : RollbackResp → List Nat
  | .ok p _ => p.map RollbackRec.studentId
  | _ => []

/-- Ids of the `skipped` list of a 200 rollback response. -/
def RollbackResp.skippedIds : RollbackResp → List Nat
  | .ok _ k => k.map SkipRec.studentId
  | _ => []

/-- `skipped` records of a 200 rollback response. -/
def RollbackResp.skippedRecs : RollbackResp → List SkipRec
  | .ok _ k => k
  | _ => []

/-- `promoteStudentsToNextSemester`: 400 before any storage access when
`studentIds` is not a non-empty array; `txnOk = false` models a
transaction-layer failure anywhere in the storage work, which aborts the
session (no staged write persists) and returns 500; otherwise 404 when no
id resolves, else the loop runs and the batch commits with 200. -/
def promoteHandler (txnOk : Bool) (env : Env) (req : ReqIds) : PromoteResp × Env :=
  match req with
  | .arr ids =>
    if ids.isEmpty then (.badRequest, env)
    else if txnOk then
      let found := findStudents env.students ids
      if found.isEmpty then (.notFound, env)
      else
        let r := promoteLoop env.courses found env.students
        (.ok r.1 r.2.1, { env with students := r.2.2 })
    else (.serverError, env)
  | _ => (.badRequest, env)

/-- `rollbackStudents`: as `promoteHandler` but with the `resetAttendance`
flag and, as in the source, no 404 path — an empty fetch result commits an
empty batch with 200. -/
def rollbackHandler (txnOk : Bool) (env : Env) (req : ReqIds)
    (resetAttendance : Bool) : RollbackResp × Env :=
  match req with
  | .arr ids =>
    if ids.isEmpty then (.badRequest, env)
    else if txnOk then
      let found := findStudents env.students ids
      let r := rollbackLoop resetAttendance found env.students
      (.ok r.1 r.2.1, { env with students := r.2.2 })
    else (.serverError, env)
  | _ => (.badRequest, env)

/-! ## Concrete fixtures used by witnesses and counterexamples -/

/-- A course with an 8-semester ceiling. -/
def course8 : Course := { cid := 1, noOfSem := 8 }

/-- A one-course catalog. -/
def cat1 : List Course := [course8]

/-- A student of `course8` with the given semester string and year label. -/
def demoStu (semId academicYear : String) : StudentState :=
  { sid := 1, courseId := 1, semId := semId, academicYear := academicYear }

/-- A one-student environment. -/
def demoEnv (semId academicYear : String) : Env :=
  { students := [demoStu semId academicYear], courses := cat1, attendance := [] }

/-! ## Helper lemmas on the JS primitives -/

theorem digitsVal_append (l : List Char) (c : Char) :
    digitsVal (l ++ [c]) = 10 * digitsVal l + digitVal c := by
  simp [digitsVal, List.foldl_append]

theorem digitChar_isDigit : ∀ d : Nat, d < 10 → (Nat.digitChar d).isDigit = true := by decide

theorem digitVal_digitChar : ∀ d : Nat, d < 10 → digitVal (Nat.digitChar d) = d := by decide

theorem isDigit_not_whitespace {c : Char} (h : c.isDigit = true) : c.isWhitespace = false := by
  cases hw : c.isWhitespace
  · rfl
  · exfalso
    simp only [Char.isWhitespace, Bool.or_eq_true, decide_eq_true_eq] at hw
    rcases hw with ((h1 | h1) | h1) | h1 <;> subst h1 <;> exact absurd h (by decide)

theorem isDigit_ne_dash {c : Char} (h : c.isDigit = true) : c ≠ '-' := by
  intro he; subst he; exact absurd h (by decide)

theorem isDigit_ne_plus {c : Char} (h : c.isDigit = true) : c ≠ '+' := by
  intro he; subst he; exact absurd h (by decide)

theorem natToDecAux_spec : ∀ fuel n, n < fuel →
    natToDecAux fuel n ≠ [] ∧ (∀ c ∈ natToDecAux fuel n, c.isDigit = true) ∧
      digitsVal (natToDecAux fuel n) = n := by
  intro fuel
  induction fuel with
  | zero => intro n h; omega
  | succ fuel ih =>
    intro n h
    by_cases h10 : n < 10
    · refine ⟨by simp [natToDecAux, h10], ?_, ?_⟩
      · intro c hc
        simp [natToDecAux, h10] at hc
        subst hc
        exact digitChar_isDigit n h10
      · simp [natToDecAux, h10, digitsVal, digitVal_digitChar n h10]
    · have hdiv : n / 10 < fuel := by
        have h1 : n / 10 < n := Nat.div_lt_self (by omega) (by omega)
        omega
      obtain ⟨hne, hdig, hval⟩ := ih (n / 10) hdiv
      refine ⟨by simp [natToDecAux, h10], ?_, ?_⟩
      · intro c hc
        simp only [natToDecAux, if_neg h10, List.mem_append, List.mem_singleton] at hc
        rcases hc with hc | hc
        · exact hdig c hc
        · subst hc
          exact digitChar_isDigit _ (Nat.mod_lt _ (by omega))
      · simp only [natToDecAux, if_neg h10, digitsVal_append, hval,
          digitVal_digitChar _ (Nat.mod_lt n (by omega))]
        omega

theorem natToDec_ne_nil (n : Nat) : natToDec n ≠ [] :=
  (natToDecAux_spec (n + 1) n (Nat.lt_succ_self n)).1

theorem natToDec_all_digits (n : Nat) : ∀ c ∈ natToDec n, c.isDigit = true :=
  (natToDecAux_spec (n + 1) n (Nat.lt_succ_self n)).2.1

theorem digitsVal_natToDec (n : Nat) : digitsVal (natToDec n) = n :=
  (natToDecAux_spec (n + 1) n (Nat.lt_succ_self n)).2.2

theorem takeWhile_all {p : Char → Bool} {l : List Char} (h : ∀ c ∈ l, p c = true) :
    l.takeWhile p = l :=
  List.takeWhile_eq_self_iff.mpr h

theorem jsParseIntList_digits {l : List Char} (hne : l ≠ [])
    (hd : ∀ c ∈ l, c.isDigit = true) : jsParseIntList l = some (digitsVal l : Int) := by
  obtain ⟨c, t, rfl⟩ := List.exists_cons_of_ne_nil hne
  have hc : c.isDigit = true := hd c (by simp)
  have hdrop : (c :: t).dropWhile Char.isWhitespace = c :: t := by
    simp [List.dropWhile, isDigit_not_whitespace hc]
  have htake : (c :: t).takeWhile Char.isDigit = c :: t := takeWhile_all hd
  simp only [jsParseIntList, hdrop]
  rw [if_neg (isDigit_ne_dash hc), if_neg (isDigit_ne_plus hc)]
  simp [htake]

theorem jsParseIntList_neg_digits {l : List Char} (hne : l ≠ [])
    (hd : ∀ c ∈ l, c.isDigit = true) :
    jsParseIntList ('-' :: l) = some (-(digitsVal l : Int)) := by
  have hdrop : ('-' :: l).dropWhile Char.isWhitespace = '-' :: l := by
    simp [List.dropWhile]
  have htake : l.takeWhile Char.isDigit = l := takeWhile_all hd
  simp only [jsParseIntList, hdrop, if_pos rfl]
  simp [htake, hne]

theorem parseIntJS_jsIntToString (m : Int) : parseIntJS (jsIntToString m) = some m := by
  by_cases hm : m < 0
  · have : parseIntJS (jsIntToString m) = jsParseIntList ('-' :: natToDec m.natAbs) := by
      simp [jsIntToString, hm, parseIntJS]
    rw [this, jsParseIntList_neg_digits (natToDec_ne_nil _) (natToDec_all_digits _),
      digitsVal_natToDec]
    congr 1
    omega
  · have : parseIntJS (jsIntToString m) = jsParseIntList (natToDec m.natAbs) := by
      simp [jsIntToString, hm, parseIntJS]
    rw [this, jsParseIntList_digits (natToDec_ne_nil _) (natToDec_all_digits _),
      digitsVal_natToDec]
    congr 1
    omega

theorem tmod_two_eq_zero_iff_even (n : Int) : n.tmod 2 = 0 ↔ Even n := by
  rw [← Int.dvd_iff_tmod_eq_zero]
  exact even_iff_two_dvd.symm

theorem takeWhile_ne_dash_append {l1 l2 : List Char} (h : ∀ c ∈ l1, c.isDigit = true) :
    (l1 ++ '-' :: l2).takeWhile (fun c => c ≠ '-') = l1 := by
  induction l1 with
  | nil => simp [List.takeWhile]
  | cons c t ih =>
    have hc : c ≠ '-' := isDigit_ne_dash (h c (by simp))
    simp only [List.cons_append, List.takeWhile_cons, decide_eq_true_eq]
    rw [if_pos hc, ih (fun d hd => h d (by simp [hd]))]

theorem splitFirst_label (m : Int) (hm : 0 ≤ m) (yy : String) :
    splitFirst (jsIntToString m ++ "-" ++ yy) = jsIntToString m := by
  have hnot : ¬ m < 0 := by omega
  have hdata : (jsIntToString m ++ "-" ++ yy).data = natToDec m.natAbs ++ '-' :: yy.data := by
    simp [jsIntToString, if_neg hnot, String.data_append]
  rw [splitFirst, hdata, takeWhile_ne_dash_append (natToDec_all_digits _)]
  simp [jsIntToString, if_neg hnot]

theorem yearForward_label (m : Int) (hm : 0 ≤ m) (yy : String) :
    yearForward (jsIntToString m ++ "-" ++ yy) =
      jsIntToString (m + 1) ++ "-" ++ sliceLast2 (jsIntToString (m + 2)) := by
  rw [yearForward, splitFirst_label m hm yy, parseIntJS_jsIntToString]

theorem yearBackward_label (m : Int) (hm : 0 ≤ m) (yy : String) :
    yearBackward (jsIntToString m ++ "-" ++ yy) =
      jsIntToString (m - 1) ++ "-" ++ sliceLast2 (jsIntToString m) := by
  rw [yearBackward, splitFirst_label m hm yy, parseIntJS_jsIntToString]

theorem natToDecAux_small {fuel n : Nat} (h : n < fuel) (h10 : n < 10) :
    natToDecAux fuel n = [Nat.digitChar n] := by
  cases fuel with
  | zero => omega
  | succ f => simp [natToDecAux, h10]

theorem natToDecAux_last2 : ∀ fuel n, n < fuel → 10 ≤ n →
    ∃ pre, natToDecAux fuel n =
      pre ++ [Nat.digitChar (n / 10 % 10), Nat.digitChar (n % 10)] := by
  intro fuel
  induction fuel with
  | zero => intro n h; omega
  | succ fuel ih =>
    intro n h h10
    have hnl : ¬ n < 10 := by omega
    have hlt : n / 10 < fuel := by
      have h1 : n / 10 < n := Nat.div_lt_self (by omega) (by omega)
      omega
    simp only [natToDecAux, if_neg hnl]
    by_cases hq : n / 10 < 10
    · refine ⟨[], ?_⟩
      rw [natToDecAux_small hlt hq, Nat.mod_eq_of_lt hq]
      simp
    · obtain ⟨pre, hpre⟩ := ih (n / 10) hlt (by omega)
      refine ⟨pre ++ [Nat.digitChar (n / 10 / 10 % 10)], ?_⟩
      rw [hpre]
      simp [List.append_assoc]

theorem natToDec_last2 (n : Nat) (h10 : 10 ≤ n) :
    ∃ pre, natToDec n = pre ++ [Nat.digitChar (n / 10 % 10), Nat.digitChar (n % 10)] :=
  natToDecAux_last2 (n + 1) n (Nat.lt_succ_self n) h10

theorem sliceLast2_jsIntToString (m : Int) (h : 10 ≤ m) :
    sliceLast2 (jsIntToString m) = pad2 (m.toNat % 100) := by
  have hm : ¬ m < 0 := by omega
  have hk : m.natAbs = m.toNat := by omega
  obtain ⟨pre, hpre⟩ := natToDec_last2 m.toNat (by omega)
  have hdata : (jsIntToString m).data = natToDec m.toNat := by
    simp [jsIntToString, if_neg hm, hk]
  have e1 : m.toNat % 100 / 10 = m.toNat / 10 % 10 := by omega
  have e2 : m.toNat % 100 % 10 = m.toNat % 10 := by omega
  rw [sliceLast2, hdata, hpre]
  have hlen : (pre ++ [Nat.digitChar (m.toNat / 10 % 10), Nat.digitChar (m.toNat % 10)]).length - 2
      = pre.length := by simp
  rw [hlen, List.drop_left]
  simp [pad2, e1, e2]

/-! ## Claim theorems -/

/-- C1: for every resolved student whose semester string parses to `n` with
`n` strictly below the course's semester ceiling, Advance applies the
transition `n ↦ n + 1` (the new semester stored as a decimal string), leaves
`academicYear` unchanged when `n` is odd, and, when `n` is even, replaces it
by the label with start year `S + 1` and recomputed suffix (where `S` is the
parsed start year of the current label). -/
theorem promote_advances (courses : List Course) (s : StudentState) (c : Course) (n : Int)
    (hc : findCourse courses s.courseId = some c)
    (hp : parseIntJS s.semId = some n)
    (hlt : n < c.noOfSem) :
    promoteStep courses s =
      .apply n (n + 1) (jsIntToString (n + 1))
        (if n.tmod 2 = 0 then yearForward s.academicYear else s.academicYear) ∧
    (¬ Even n →
      (if n.tmod 2 = 0 then yearForward s.academicYear else s.academicYear)
        = s.academicYear) ∧
    (Even n → ∀ S : Int, parseIntJS (splitFirst s.academicYear) = some S →
      (if n.tmod 2 = 0 then yearForward s.academicYear else s.academicYear)
        = jsIntToString (S + 1) ++ "-" ++ sliceLast2 (jsIntToString (S + 2))) := by
  have hge : ¬ n ≥ c.noOfSem := by omega
  refine ⟨?_, ?_, ?_⟩
  · simp only [promoteStep, hc, hp, if_neg hge]
  · intro hodd
    rw [if_neg (fun h => hodd ((tmod_two_eq_zero_iff_even n).mp h))]
  · intro heven S hS
    rw [if_pos ((tmod_two_eq_zero_iff_even n).mpr heven), yearForward, hS]

/-- Witness for C1: the spec's own worked example, semester "4" in
"2024-25" with an 8-semester ceiling advances to "5" in "2025-26". -/
theorem promote_advances_witness :
    promoteStep cat1 (demoStu "4" "2024-25") = .apply 4 5 "5" "2025-26" := by
  have h := (promote_advances cat1 (demoStu "4" "2024-25") course8 4
    (by decide) (by decide) (by decide)).1
  rw [h]
  decide

/-- C3: a resolved student whose parsed semester is at or above the course's
ceiling is skipped with reason FINAL_SEMESTER ("Final semester"), and
processing that student threads the Students collection through
unchanged. -/
theorem promote_final_semester_skips (courses : List Course) (s : StudentState) (c : Course)
    (n : Int) (hc : findCourse courses s.courseId = some c)
    (hp : parseIntJS s.semId = some n) (hge : n ≥ c.noOfSem) :
    promoteStep courses s = .skip .finalSemester ∧
    ∀ rest db, promoteLoop courses (s :: rest) db =
      ((promoteLoop courses rest db).1,
        ⟨s.sid, SkipReason.finalSemester⟩ :: (promoteLoop courses rest db).2.1,
        (promoteLoop courses rest db).2.2) := by
  have hstep : promoteStep courses s = .skip .finalSemester := by
    simp only [promoteStep, hc, hp, if_pos hge]
  exact ⟨hstep, fun rest db => by simp only [promoteLoop, hstep]⟩

/-- Witness for C3: semester "8" on the 8-semester course is skipped with
FINAL_SEMESTER and nothing is written. -/
theorem promote_final_semester_skips_witness :
    promoteStep cat1 (demoStu "8" "2024-25") = .skip .finalSemester ∧
    promoteLoop cat1 [demoStu "8" "2024-25"] [demoStu "8" "2024-25"] =
      ([], [⟨1, SkipReason.finalSemester⟩], [demoStu "8" "2024-25"]) := by
  have h := promote_final_semester_skips cat1 (demoStu "8" "2024-25") course8 8
    (by decide) (by decide) (by decide)
  refine ⟨h.1, ?_⟩
  rw [h.2 [] [demoStu "8" "2024-25"]]
  decide

/-- C4: under normal rollback (`resetAttendance = false`), a parsed semester
`n ≤ 1` is skipped with ALREADY_FIRST_SEMESTER and the collection is
threaded through unchanged; for `n > 1` the semester is decremented to
`n - 1` and the `$set` payload touches `academicYear` exactly when `n` is
even, regressing the label's start year by one, with record type
NORMAL_ROLLBACK. -/
theorem rollback_normal_spec (s : StudentState) (n : Int)
    (hp : parseIntJS s.semId = some n) :
    (n ≤ 1 → rollbackStep false s = .skip .alreadyFirstSemester ∧
      ∀ rest db, rollbackLoop false (s :: rest) db =
        ((rollbackLoop false rest db).1,
          ⟨s.sid, SkipReason.alreadyFirstSemester⟩ :: (rollbackLoop false rest db).2.1,
          (rollbackLoop false rest db).2.2)) ∧
    (1 < n →
      rollbackStep false s =
        .apply (some (jsIntToString (n - 1)))
          (if n.tmod 2 = 0 then some (yearBackward s.academicYear) else none)
          .normalRollback ∧
      (¬ Even n →
        (if n.tmod 2 = 0 then some (yearBackward s.academicYear) else none)
          = (none : Option String)) ∧
      (Even n → ∀ S : Int, parseIntJS (splitFirst s.academicYear) = some S →
        (if n.tmod 2 = 0 then some (yearBackward s.academicYear) else none)
          = some (jsIntToString (S - 1) ++ "-" ++ sliceLast2 (jsIntToString S)))) := by
  constructor
  · intro hle
    have hstep : rollbackStep false s = .skip .alreadyFirstSemester := by
      simp only [rollbackStep, hp, if_neg (Bool.false_ne_true), if_pos hle]
    exact ⟨hstep, fun rest db => by simp only [rollbackLoop, hstep]⟩
  · intro hgt
    have hnle : ¬ n ≤ 1 := by omega
    refine ⟨?_, ?_, ?_⟩
    · simp only [rollbackStep, hp, if_neg hnle]
      simp
    · intro hodd
      rw [if_neg (fun h => hodd ((tmod_two_eq_zero_iff_even n).mp h))]
    · intro heven S hS
      rw [if_pos ((tmod_two_eq_zero_iff_even n).mpr heven), yearBackward, hS]

/-- Witness for C4: semester "1" skips with ALREADY_FIRST_SEMESTER; semester
"2" in "2025-26" rolls back to "1" with the year regressed to "2024-25". -/
theorem rollback_normal_spec_witness :
    rollbackStep false (demoStu "1" "2025-26") = .skip .alreadyFirstSemester ∧
    rollbackStep false (demoStu "2" "2025-26") =
      .apply (some "1") (some "2024-25") .normalRollback := by
  have h1 := ((rollback_normal_spec (demoStu "1" "2025-26") 1 (by decide)).1 (by decide)).1
  have h2 := ((rollback_normal_spec (demoStu "2" "2025-26") 2 (by decide)).2 (by decide)).1
  refine ⟨h1, ?_⟩
  rw [h2]
  decide

/-- Counterexample to C5 as stated: a student whose semester string does not
parse (here "x") is skipped with INVALID_SEMESTER before the
`resetAttendance` branch is ever reached, so no RESET_YEAR_ONLY transition
is recorded and the year is not advanced. -/
theorem rollback_reset_cex :
    rollbackStep true (demoStu "x" "2025-26") = .skip .invalidSemester ∧
    rollbackLoop true [demoStu "x" "2025-26"] [demoStu "x" "2025-26"] =
      ([], [⟨1, SkipReason.invalidSemester⟩], [demoStu "x" "2025-26"]) := by
  decide

/-- C5 (amended): for every student whose semester string parses, Rollback
with `resetAttendance = true` leaves the semester unchanged (the `$set`
payload has no semester component), records kind RESET_YEAR_ONLY, and sets
`academicYear` to the forward-derived label; when the current label's start
segment parses as `S`, that label has start year `S + 1` with recomputed
suffix. -/
theorem rollback_reset_amended (s : StudentState) (n : Int)
    (hp : parseIntJS s.semId = some n) :
    rollbackStep true s = .apply none (some (yearForward s.academicYear)) .resetYearOnly ∧
    (∀ S : Int, parseIntJS (splitFirst s.academicYear) = some S →
      yearForward s.academicYear =
        jsIntToString (S + 1) ++ "-" ++ sliceLast2 (jsIntToString (S + 2))) := by
  constructor
  · simp [rollbackStep, hp]
  · intro S hS
    rw [yearForward, hS]

/-- Witness for the amended C5: semester "5" in "2025-26" keeps its semester
and moves to "2026-27" with kind RESET_YEAR_ONLY. -/
theorem rollback_reset_amended_witness :
    rollbackStep true (demoStu "5" "2025-26") =
      .apply none (some "2026-27") .resetYearOnly := by
  have h := (rollback_reset_amended (demoStu "5" "2025-26") 5 (by decide)).1
  rw [h]
  decide

/-- Counterexample to C6 as stated: the semester string "0" does not parse
as a positive integer, yet Advance does not skip it with INVALID_SEMESTER —
`parseInt("0")` is `0`, not `NaN`, so the student is promoted to semester
"1" (with a year bump, `0` being even), and normal Rollback skips it with
ALREADY_FIRST_SEMESTER rather than INVALID_SEMESTER. -/
theorem invalid_semester_cex :
    promoteStep cat1 (demoStu "0" "2025-26") = .apply 0 1 "1" "2026-27" ∧
    rollbackStep false (demoStu "0" "2025-26") = .skip .alreadyFirstSemester := by
  decide

/-- C6 (amended): in both operations a resolved student is skipped with
INVALID_SEMESTER exactly when `parseInt` of the semester string yields NaN
(no leading integer, e.g. a non-numeric string); in Advance this applies
once the student's course resolves (course lookup runs first).  Strings
parsing to non-positive integers such as "0" or "-3" are not treated as
invalid.  The skipping iteration threads the Students collection through
unchanged. -/
theorem invalid_semester_amended (courses : List Course) (s : StudentState) (b : Bool)
    (hp : parseIntJS s.semId = none) :
    (findCourse courses s.courseId ≠ none →
      promoteStep courses s = .skip .invalidSemester ∧
      ∀ rest db, promoteLoop courses (s :: rest) db =
        ((promoteLoop courses rest db).1,
          ⟨s.sid, SkipReason.invalidSemester⟩ :: (promoteLoop courses rest db).2.1,
          (promoteLoop courses rest db).2.2)) ∧
    rollbackStep b s = .skip .invalidSemester ∧
    ∀ rest db, rollbackLoop b (s :: rest) db =
      ((rollbackLoop b rest db).1,
        ⟨s.sid, SkipReason.invalidSemester⟩ :: (rollbackLoop b rest db).2.1,
        (rollbackLoop b rest db).2.2) := by
  have hrb : rollbackStep b s = .skip .invalidSemester := by
    simp only [rollbackStep, hp]
  refine ⟨?_, hrb, fun rest db => by simp only [rollbackLoop, hrb]⟩
  intro hcourse
  cases hc : findCourse courses s.courseId with
  | none => exact absurd hc hcourse
  | some c =>
    have hstep : promoteStep courses s = .skip .invalidSemester := by
      simp only [promoteStep, hc, hp]
    exact ⟨hstep, fun rest db => by simp only [promoteLoop, hstep]⟩

/-- Witness for the amended C6: the non-numeric semester "abc" is skipped
with INVALID_SEMESTER by both operations. -/
theorem invalid_semester_amended_witness :
    promoteStep cat1 (demoStu "abc" "2025-26") = .skip .invalidSemester ∧
    rollbackStep false (demoStu "abc" "2025-26") = .skip .invalidSemester := by
  have h := invalid_semester_amended cat1 (demoStu "abc" "2025-26") false (by decide)
  exact ⟨(h.1 (by decide)).1, h.2.1⟩

/-- Counterexample to C2 as stated: start from semester "1" in "2025-26"
with an 8-semester ceiling.  Advance applies (it does not hit
FINAL_SEMESTER) and yields semester "2" with the year unchanged (1 is odd);
normal Rollback then decrements the semester but, 2 being even, regresses
the year to "2024-25".  The original pair ("1", "2025-26") is not
restored. -/
theorem advance_rollback_roundtrip_cex :
    promoteStep cat1 (demoStu "1" "2025-26") ≠ .skip .finalSemester ∧
    applyRollback
        (applyPromote (demoStu "1" "2025-26") (promoteStep cat1 (demoStu "1" "2025-26")))
        (rollbackStep false
          (applyPromote (demoStu "1" "2025-26") (promoteStep cat1 (demoStu "1" "2025-26"))))
      = demoStu "1" "2024-25" ∧
    demoStu "1" "2024-25" ≠ demoStu "1" "2025-26" := by
  decide

/-- C2 (amended): when Advance applies a transition from a parsed semester
`n` with `1 ≤ n < ceiling`, running normal Rollback on the advanced state
restores the semester as the canonical decimal string of `n` (so the parsed
semester round-trips; for `n ≤ 0` the rollback would instead skip with
ALREADY_FIRST_SEMESTER).  The academic year is NOT restored: both
transitions key their year change on the parity of their own pre-transition
semester, so an odd `n` ends one year behind the original label and an even
`n` ends one year ahead of it. -/
theorem advance_rollback_roundtrip_amended (courses : List Course) (s : StudentState)
    (c : Course) (n : Int) (hc : findCourse courses s.courseId = some c)
    (hp : parseIntJS s.semId = some n) (hlt : n < c.noOfSem) (h1 : 1 ≤ n) :
    (applyRollback (applyPromote s (promoteStep courses s))
        (rollbackStep false (applyPromote s (promoteStep courses s)))).semId
      = jsIntToString n ∧
    parseIntJS
        (applyRollback (applyPromote s (promoteStep courses s))
          (rollbackStep false (applyPromote s (promoteStep courses s)))).semId
      = some n ∧
    (Even n →
      (applyRollback (applyPromote s (promoteStep courses s))
          (rollbackStep false (applyPromote s (promoteStep courses s)))).academicYear
        = yearForward s.academicYear) ∧
    (¬ Even n →
      (applyRollback (applyPromote s (promoteStep courses s))
          (rollbackStep false (applyPromote s (promoteStep courses s)))).academicYear
        = yearBackward s.academicYear) := by
  have hge : ¬ n ≥ c.noOfSem := by omega
  have hstep : promoteStep courses s =
      .apply n (n + 1) (jsIntToString (n + 1))
        (if n.tmod 2 = 0 then yearForward s.academicYear else s.academicYear) := by
    simp only [promoteStep, hc, hp, if_neg hge]
  have hs1 : applyPromote s (promoteStep courses s) =
      { s with semId := jsIntToString (n + 1),
               academicYear :=
                 if n.tmod 2 = 0 then yearForward s.academicYear else s.academicYear } := by
    rw [hstep]
    rfl
  have hparse : parseIntJS (jsIntToString (n + 1)) = some (n + 1) :=
    parseIntJS_jsIntToString _
  have hnle : ¬ (n + 1 ≤ 1) := by omega
  have hsub : n + 1 - 1 = n := by omega
  have hrb : rollbackStep false (applyPromote s (promoteStep courses s)) =
      .apply (some (jsIntToString n))
        (if (n + 1).tmod 2 = 0
          then some (yearBackward
            (if n.tmod 2 = 0 then yearForward s.academicYear else s.academicYear))
          else none)
        .normalRollback := by
    rw [hs1]
    simp only [rollbackStep, hparse, if_neg hnle, hsub]
    simp
  rw [hrb, hs1]
  by_cases hev : Even n
  · have ht : n.tmod 2 = 0 := (tmod_two_eq_zero_iff_even n).mpr hev
    have ht1 : ¬ (n + 1).tmod 2 = 0 := by
      rw [tmod_two_eq_zero_iff_even, Int.even_add_one]
      simpa using hev
    simp [applyRollback, if_pos ht, if_neg ht1, hev, parseIntJS_jsIntToString]
  · have ht : ¬ n.tmod 2 = 0 := fun h => hev ((tmod_two_eq_zero_iff_even n).mp h)
    have ht1 : (n + 1).tmod 2 = 0 := by
      rw [tmod_two_eq_zero_iff_even, Int.even_add_one]
      simpa using hev
    simp [applyRollback, if_neg ht, if_pos ht1, hev, parseIntJS_jsIntToString]

/-- Witness for the amended C2: the spec's worked example, semester "4" in
"2024-25".  Advance gives ("5", "2025-26"); Rollback returns the semester to
"4" but leaves the year at "2025-26", one ahead of the original. -/
theorem advance_rollback_roundtrip_amended_witness :
    (applyRollback (applyPromote (demoStu "4" "2024-25")
          (promoteStep cat1 (demoStu "4" "2024-25")))
        (rollbackStep false (applyPromote (demoStu "4" "2024-25")
          (promoteStep cat1 (demoStu "4" "2024-25"))))).semId
      = "4" ∧
    (applyRollback (applyPromote (demoStu "4" "2024-25")
          (promoteStep cat1 (demoStu "4" "2024-25")))
        (rollbackStep false (applyPromote (demoStu "4" "2024-25")
          (promoteStep cat1 (demoStu "4" "2024-25"))))).academicYear
      = "2025-26" := by
  have h := advance_rollback_roundtrip_amended cat1 (demoStu "4" "2024-25") course8 4
    (by decide) (by decide) (by decide) (by decide)
  have h4 : Even (4 : Int) := ⟨2, by omega⟩
  refine ⟨?_, ?_⟩
  · rw [h.1]
    decide
  · rw [h.2.2.1 h4]
    decide

/-- Counterexample to C7 as stated: for the label "2025-26" (start year
S = 2025) the claim's backward rule predicts suffix `last two digits of
S + 1 = 2026`, i.e. "2024-26", but the code computes the suffix from
`prevStart + 1 = S`, giving "2024-25". -/
theorem year_label_backward_cex :
    yearBackward "2025-26" = "2024-25" ∧ ("2024-25" : String) ≠ "2024-26" := by
  decide

/-- C7 (amended): for every label whose start segment is the decimal
rendering of an integer `S ≥ 10` (any suffix), the forward-derived label is
`(S+1)-ZZ` with `ZZ` the zero-padded last two digits of `S + 2`, and the
backward-derived label is `(S-1)-ZZ` with `ZZ` the zero-padded last two
digits of `S` (the original start year, not `S + 1`), century boundaries
included.  For start years below 10 the code's `slice(-2)` would emit a
single unpadded digit. -/
theorem year_label_arith_amended (S : Int) (yy : String) (h : 10 ≤ S) :
    yearForward (jsIntToString S ++ "-" ++ yy) =
      jsIntToString (S + 1) ++ "-" ++ pad2 ((S + 2).toNat % 100) ∧
    yearBackward (jsIntToString S ++ "-" ++ yy) =
      jsIntToString (S - 1) ++ "-" ++ pad2 (S.toNat % 100) := by
  constructor
  · rw [yearForward_label S (by omega) yy, sliceLast2_jsIntToString (S + 2) (by omega)]
  · rw [yearBackward_label S (by omega) yy, sliceLast2_jsIntToString S h]

/-- Witness for the amended C7 at the century boundary of the claim:
"2099-00" derives forward to "2100-01" and backward to "2098-99". -/
theorem year_label_arith_amended_witness :
    yearForward "2099-00" = "2100-01" ∧ yearBackward "2099-00" = "2098-99" := by
  have e : ("2099-00" : String) = jsIntToString 2099 ++ "-" ++ "00" := by decide
  have h := year_label_arith_amended 2099 "00" (by decide)
  constructor
  · rw [e, h.1]
    decide
  · rw [e, h.2]
    decide

theorem promoteLoop_count (courses : List Course) (found : List StudentState) (i : Nat) :
    ∀ db, ((promoteLoop courses found db).1.map PromoteRec.studentId).count i +
      ((promoteLoop courses found db).2.1.map SkipRec.studentId).count i =
      (found.map StudentState.sid).count i := by
  induction found with
  | nil => intro db; simp [promoteLoop]
  | cons s rest ih =>
    intro db
    cases hstep : promoteStep courses s with
    | apply f t ns ny =>
      have hih := ih (updateWith db s.sid (fun u => { u with semId := ns, academicYear := ny }))
      simp only [promoteLoop, hstep, List.map_cons, List.count_cons]
      omega
    | skip reason =>
      have hih := ih db
      simp only [promoteLoop, hstep, List.map_cons, List.count_cons]
      omega

theorem rollbackLoop_count (b : Bool) (found : List StudentState) (i : Nat) :
    ∀ db, ((rollbackLoop b found db).1.map RollbackRec.studentId).count i +
      ((rollbackLoop b found db).2.1.map SkipRec.studentId).count i =
      (found.map StudentState.sid).count i := by
  induction found with
  | nil => intro db; simp [rollbackLoop]
  | cons s rest ih =>
    intro db
    cases hstep : rollbackStep b s with
    | apply sp yp k =>
      have hih := ih (updateWith db s.sid
        (fun u => { u with semId := sp.getD u.semId, academicYear := yp.getD u.academicYear }))
      simp only [rollbackLoop, hstep, List.map_cons, List.count_cons]
      omega
    | skip reason =>
      have hih := ih db
      simp only [rollbackLoop, hstep, List.map_cons, List.count_cons]
      omega

theorem count_findStudents (db : List StudentState) (ids : List Nat) (i : Nat)
    (hi : i ∈ ids) :
    ((findStudents db ids).map StudentState.sid).count i =
      (db.map StudentState.sid).count i := by
  induction db with
  | nil => rfl
  | cons s rest ih =>
    have hcons : findStudents (s :: rest) ids =
        if ids.contains s.sid then s :: findStudents rest ids else findStudents rest ids := by
      simp only [findStudents, List.filter_cons]
    rw [hcons]
    cases hc : ids.contains s.sid with
    | true =>
      rw [if_pos rfl]
      simp only [List.map_cons, List.count_cons, ih]
    | false =>
      have hs : ¬ i = s.sid := by
        intro h
        rw [← h] at hc
        have hmem : ids.contains i = true := List.elem_iff.mpr hi
        rw [hmem] at hc
        exact Bool.true_eq_false.mp hc
      rw [if_neg Bool.false_ne_true]
      simp only [List.map_cons, List.count_cons, ih]
      simp [hs]
      exact fun h => hs h.symm

theorem count_findStudents_zero (db : List StudentState) (ids : List Nat) (i : Nat)
    (hni : i ∉ db.map StudentState.sid) :
    ((findStudents db ids).map StudentState.sid).count i = 0 := by
  rw [List.count_eq_zero]
  intro hmem
  have hsub : List.Sublist ((findStudents db ids).map StudentState.sid)
      (db.map StudentState.sid) :=
    List.Sublist.map _ (List.filter_sublist db)
  exact hni (hsub.subset hmem)

/-- Counterexample to C8 as stated: requesting ids [1, 2] against a store
holding only student 1 is not rejected (the response is a 200 with student
1 promoted), yet the requested id 2 appears in neither the applied nor the
skipped list. -/
theorem partition_cex :
    (promoteHandler true (demoEnv "3" "2025-26") (.arr [1, 2])).1 =
      .ok [⟨1, 3, 4, "2025-26"⟩] [] ∧
    ¬ 2 ∈ (promoteHandler true (demoEnv "3" "2025-26") (.arr [1, 2])).1.appliedIds ∧
    ¬ 2 ∈ (promoteHandler true (demoEnv "3" "2025-26") (.arr [1, 2])).1.skippedIds := by
  decide

/-- C8 (amended): assuming distinct ids in the Students collection, every
requested id that resolves to a stored student appears exactly once across
the applied and skipped lists of both Advance and Rollback outcomes;
a requested id that does not resolve appears in neither list (it is dropped
silently unless the whole batch resolves nothing, in which case Advance is
rejected with 404 while Rollback still returns an empty 200 outcome). -/
theorem partition_amended (env : Env) (ids : List Nat) (i : Nat) (b : Bool)
    (hnd : (env.students.map StudentState.sid).Nodup) (hi : i ∈ ids) :
    (i ∈ env.students.map StudentState.sid →
      ((promoteHandler true env (.arr ids)).1.appliedIds ++
        (promoteHandler true env (.arr ids)).1.skippedIds).count i = 1 ∧
      ((rollbackHandler true env (.arr ids) b).1.appliedIds ++
        (rollbackHandler true env (.arr ids) b).1.skippedIds).count i = 1) ∧
    (i ∉ env.students.map StudentState.sid →
      ((promoteHandler true env (.arr ids)).1.appliedIds ++
        (promoteHandler true env (.arr ids)).1.skippedIds).count i = 0 ∧
      ((rollbackHandler true env (.arr ids) b).1.appliedIds ++
        (rollbackHandler true env (.arr ids) b).1.skippedIds).count i = 0) := by
  have hne : ids ≠ [] := List.ne_nil_of_mem hi
  have hempty : ids.isEmpty = false := by
    cases ids with
    | nil => exact absurd rfl hne
    | cons a t => rfl
  constructor
  · intro hmem
    have hcnt1 : ((findStudents env.students ids).map StudentState.sid).count i = 1 := by
      rw [count_findStudents env.students ids i hi]
      exact List.count_eq_one_of_mem hnd hmem
    have hfne : (findStudents env.students ids).isEmpty = false := by
      cases hfe : findStudents env.students ids with
      | nil => rw [hfe] at hcnt1; simp at hcnt1
      | cons a t => rfl
    constructor
    · simp only [promoteHandler, hempty, hfne, Bool.false_eq_true, if_false, if_true,
        PromoteResp.appliedIds, PromoteResp.skippedIds]
      rw [List.count_append,
        promoteLoop_count env.courses (findStudents env.students ids) i env.students]
      exact hcnt1
    · simp only [rollbackHandler, hempty, Bool.false_eq_true, if_false, if_true,
        RollbackResp.appliedIds, RollbackResp.skippedIds]
      rw [List.count_append,
        rollbackLoop_count b (findStudents env.students ids) i env.students]
      exact hcnt1
  · intro hnm
    have hcnt0 : ((findStudents env.students ids).map StudentState.sid).count i = 0 :=
      count_findStudents_zero env.students ids i hnm
    constructor
    · cases hfe : findStudents env.students ids with
      | nil =>
        simp [promoteHandler, hempty, hfe, PromoteResp.appliedIds, PromoteResp.skippedIds]
      | cons a t =>
        have hfne : (findStudents env.students ids).isEmpty = false := by rw [hfe]; rfl
        simp only [promoteHandler, hempty, hfne, Bool.false_eq_true, if_false, if_true,
          PromoteResp.appliedIds, PromoteResp.skippedIds]
        rw [List.count_append,
          promoteLoop_count env.courses (findStudents env.students ids) i env.students]
        exact hcnt0
    · simp only [rollbackHandler, hempty, Bool.false_eq_true, if_false, if_true,
        RollbackResp.appliedIds, RollbackResp.skippedIds]
      rw [List.count_append,
        rollbackLoop_count b (findStudents env.students ids) i env.students]
      exact hcnt0

/-- Witness for the amended C8: with ids [1, 2] against the one-student
store, the resolving id 1 appears exactly once and the unresolved id 2 not
at all, in both operations. -/
theorem partition_amended_witness :
    (((promoteHandler true (demoEnv "4" "2024-25") (.arr [1, 2])).1.appliedIds ++
      (promoteHandler true (demoEnv "4" "2024-25") (.arr [1, 2])).1.skippedIds).count 1 = 1 ∧
     ((rollbackHandler true (demoEnv "4" "2024-25") (.arr [1, 2]) false).1.appliedIds ++
      (rollbackHandler true (demoEnv "4" "2024-25") (.arr [1, 2]) false).1.skippedIds).count 1
        = 1) ∧
    (((promoteHandler true (demoEnv "4" "2024-25") (.arr [1, 2])).1.appliedIds ++
      (promoteHandler true (demoEnv "4" "2024-25") (.arr [1, 2])).1.skippedIds).count 2 = 0 ∧
     ((rollbackHandler true (demoEnv "4" "2024-25") (.arr [1, 2]) false).1.appliedIds ++
      (rollbackHandler true (demoEnv "4" "2024-25") (.arr [1, 2]) false).1.skippedIds).count 2
        = 0) :=
  ⟨(partition_amended (demoEnv "4" "2024-25") [1, 2] 1 false (by decide) (by decide)).1
      (by decide),
   (partition_amended (demoEnv "4" "2024-25") [1, 2] 2 false (by decide) (by decide)).2
      (by decide)⟩

/-- Counterexample to C9 as stated: a rollback request whose only id (99)
resolves to no stored student is answered with an empty 200 outcome, not
with the 404 the shared status-code contract claims for both endpoints. -/
theorem status_code_cex :
    findStudents (demoEnv "3" "2025-26").students [99] = [] ∧
    (rollbackHandler true (demoEnv "3" "2025-26") (.arr [99]) false).1 = .ok [] [] ∧
    (rollbackHandler true (demoEnv "3" "2025-26") (.arr [99]) false).1.status = 200 := by
  decide

/-- C9 (amended): both endpoints answer 400 when `studentIds` is missing,
not an array, or empty, 500 on a transaction-layer failure, and 200 with
embedded per-item skips on a committed batch; but only Advance answers 404
when none of the supplied ids resolve — Rollback, lacking that check,
commits an empty batch and answers 200. -/
theorem status_codes_amended (env : Env) (b t : Bool) :
    ((promoteHandler t env .missing).1.status = 400 ∧
     (rollbackHandler t env .missing b).1.status = 400 ∧
     (promoteHandler t env .notArray).1.status = 400 ∧
     (rollbackHandler t env .notArray b).1.status = 400 ∧
     (promoteHandler t env (.arr [])).1.status = 400 ∧
     (rollbackHandler t env (.arr []) b).1.status = 400) ∧
    (∀ ids : List Nat, ids ≠ [] →
      (promoteHandler false env (.arr ids)).1.status = 500 ∧
      (rollbackHandler false env (.arr ids) b).1.status = 500) ∧
    (∀ ids : List Nat, ids ≠ [] → findStudents env.students ids = [] →
      (promoteHandler true env (.arr ids)).1.status = 404 ∧
      (rollbackHandler true env (.arr ids) b).1.status = 200) ∧
    (∀ ids : List Nat, ids ≠ [] → findStudents env.students ids ≠ [] →
      (promoteHandler true env (.arr ids)).1.status = 200 ∧
      (rollbackHandler true env (.arr ids) b).1.status = 200) := by
  refine ⟨⟨rfl, rfl, rfl, rfl, rfl, rfl⟩, ?_, ?_, ?_⟩
  · intro ids hne
    obtain ⟨a, tl, rfl⟩ := List.exists_cons_of_ne_nil hne
    exact ⟨rfl, rfl⟩
  · intro ids hne hfe
    obtain ⟨a, tl, rfl⟩ := List.exists_cons_of_ne_nil hne
    constructor
    · simp [promoteHandler, hfe, PromoteResp.status]
    · simp [rollbackHandler, RollbackResp.status]
  · intro ids hne hfne
    obtain ⟨a, tl, rfl⟩ := List.exists_cons_of_ne_nil hne
    have hfe : (findStudents env.students (a :: tl)).isEmpty = false := by
      cases hfe2 : findStudents env.students (a :: tl) with
      | nil => exact absurd hfe2 hfne
      | cons x xs => rfl
    constructor
    · simp [promoteHandler, hfe, PromoteResp.status]
    · simp [rollbackHandler, RollbackResp.status]

/-- Witness for the amended C9: concrete calls exercising the 400, 500,
404 and 200 answers of the two endpoints. -/
theorem status_codes_amended_witness :
    (promoteHandler true (demoEnv "3" "2025-26") .missing).1.status = 400 ∧
    (promoteHandler false (demoEnv "3" "2025-26") (.arr [1])).1.status = 500 ∧
    (promoteHandler true (demoEnv "3" "2025-26") (.arr [99])).1.status = 404 ∧
    (rollbackHandler true (demoEnv "3" "2025-26") (.arr [1]) false).1.status = 200 := by
  have h := status_codes_amended (demoEnv "3" "2025-26") false true
  exact ⟨h.1.1, (h.2.1 [1] (by decide)).1, (h.2.2.1 [99] (by decide) (by decide)).1,
    (h.2.2.2 [1] (by decide) (by decide)).2⟩

theorem rollbackStep_skip_ne_courseNotFound (b : Bool) (s : StudentState)
    (reason : SkipReason) (h : rollbackStep b s = .skip reason) :
    reason ≠ SkipReason.courseNotFound := by
  intro hcnf
  subst hcnf
  unfold rollbackStep at h
  cases hp : parseIntJS s.semId with
  | none => rw [hp] at h; simp at h
  | some n =>
    rw [hp] at h
    simp only [] at h
    split_ifs at h
    simp_all

theorem rollbackLoop_no_courseNotFound (b : Bool) (found : List StudentState) :
    ∀ db r, r ∈ (rollbackLoop b found db).2.1 → r.reason ≠ SkipReason.courseNotFound := by
  induction found with
  | nil => intro db r hr; simp [rollbackLoop] at hr
  | cons s rest ih =>
    intro db r hr
    cases hstep : rollbackStep b s with
    | apply sp yp k =>
      simp only [rollbackLoop, hstep] at hr
      exact ih _ r hr
    | skip reason =>
      simp only [rollbackLoop, hstep, List.mem_cons] at hr
      rcases hr with hr | hr
      · subst hr
        exact rollbackStep_skip_ne_courseNotFound b s reason hstep
      · exact ih _ r hr

/-- C10: Rollback reads and writes only the Students collection.  The
Course catalog and the Attendance collection come out of the handler
untouched (in particular `resetAttendance = true` modifies no attendance
record); two environments agreeing on their students produce the same
response and the same resulting students; and no rollback skip ever carries
reason COURSE_NOT_FOUND, since the course ceiling is never consulted. -/
theorem rollback_frame (txnOk : Bool) (env env2 : Env) (req : ReqIds) (b : Bool)
    (hst : env2.students = env.students) :
    (rollbackHandler txnOk env req b).2.courses = env.courses ∧
    (rollbackHandler txnOk env req b).2.attendance = env.attendance ∧
    (rollbackHandler txnOk env2 req b).1 = (rollbackHandler txnOk env req b).1 ∧
    (rollbackHandler txnOk env2 req b).2.students =
      (rollbackHandler txnOk env req b).2.students ∧
    ∀ r ∈ (rollbackHandler txnOk env req b).1.skippedRecs,
      r.reason ≠ SkipReason.courseNotFound := by
  cases req with
  | missing =>
    refine ⟨rfl, rfl, rfl, hst, ?_⟩
    intro r hr
    simp [rollbackHandler, RollbackResp.skippedRecs] at hr
  | notArray =>
    refine ⟨rfl, rfl, rfl, hst, ?_⟩
    intro r hr
    simp [rollbackHandler, RollbackResp.skippedRecs] at hr
  | arr ids =>
    cases hids : ids.isEmpty with
    | true =>
      refine ⟨?_, ?_, ?_, ?_, ?_⟩ <;>
        simp [rollbackHandler, hids, hst, RollbackResp.skippedRecs]
    | false =>
      cases txnOk with
      | false =>
        refine ⟨?_, ?_, ?_, ?_, ?_⟩ <;>
          simp [rollbackHandler, hids, hst, RollbackResp.skippedRecs]
      | true =>
        refine ⟨?_, ?_, ?_, ?_, ?_⟩ <;>
          simp only [rollbackHandler, hids, hst, Bool.false_eq_true, if_false, if_true,
            RollbackResp.skippedRecs]
        · intro r hr
          exact rollbackLoop_no_courseNotFound b (findStudents env.students ids)
            env.students r hr

/-- Witness for C10: a concrete rollback call leaves the catalog and the
(empty) attendance store exactly as they were. -/
theorem rollback_frame_witness :
    (rollbackHandler true (demoEnv "2" "2025-26") (.arr [1]) true).2.courses = cat1 ∧
    (rollbackHandler true (demoEnv "2" "2025-26") (.arr [1]) true).2.attendance = [] := by
  have h := rollback_frame true (demoEnv "2" "2025-26") (demoEnv "2" "2025-26")
    (.arr [1]) true rfl
  exact ⟨h.1, h.2.1⟩

end IIPS
